import Mathlib

/-!
A shallow embedding of the realtime hub of the HERMES/openvoice repository
(`internal/realtime/hub.go`, the client pump file, and the `database`
message-store functions), together with theorems checking the
natural-language specification against it.

Modelling conventions:
* Go `*Client` pointers are client identifiers (`Nat`); the per-client
  mutable fields live in `HubState.clientStates`.
* Go maps (`map[*Client]struct{}`, `map[int64]map[*Client]struct{}`) are
  modelled with set semantics: membership lists, deletion as `filter`,
  insertion guarded by prior removal.  Go's `delete`-empty-entry
  housekeeping in `removeClient`/`joinChannel` is unobservable here (a
  missing key and an empty member set look alike), so it is dropped.
* JSON marshalling of outbound events is structural (`Frame`); for the
  event shapes the hub marshals, `json.Marshal` cannot fail, so the
  marshal-error branches of the Go code are unreachable and not modelled.
* The SQL store is a `DB` value; a query/exec failing (timeout, I/O) is
  modelled by the `ioError` flag.  Machine integers (`int64`) are `Int`;
  none of the modelled operations can overflow them.
* The bounded outbound channel (`make(chan []byte, 256)`) is a list plus
  the capacity constant; `select { case ch <- v: default: ... }` enqueues
  when the length is below capacity and takes the `default` branch
  otherwise.
-/

namespace Openvoice

/-- Go `realtime.User` — verified identity attached to a connection. -/
structure User where
  id : Int
  username : String
deriving DecidableEq

/-- Go `database.Message` — the canonical stored message as returned by the
store (row joined with the author's username). -/
structure Message where
  id : Int
  channelID : Int
  userID : Int
  username : String
  content : String
  createdAt : Int
deriving DecidableEq

/-- A row of the `messages` table (no username column; the username is
joined in at query time). -/
structure MsgRow where
  id : Int
  channelID : Int
  userID : Int
  content : String
  createdAt : Int
deriving DecidableEq

/-- The relational store visible to the hub: the `channels` table (ids),
the `users` table (id, username), the `messages` table, the
autoincrement counter and clock, and a failure flag standing for a
query/exec error or timeout. -/
structure DB where
  channels : List Int
  users : List (Int × String)
  messages : List MsgRow
  nextID : Int
  now : Int
  ioError : Bool
deriving DecidableEq

/-- Go `realtime.inboundEvent` — a decoded inbound frame.  `payload`
(`json.RawMessage`) is kept opaque as a string of bytes. -/
structure InEvent where
  type : String
  channelID : Int
  content : String
  targetID : String
  payload : String
deriving DecidableEq

/-- An outbound frame (`realtime.outboundEvent` after marshalling),
modelled structurally rather than as JSON bytes. -/
inductive Frame where
  | channelHistory (channelID : Int) (messages : List Message)
  | newMessage (m : Message)
  | userJoinedVoice (userID : Int) (username : String) (channelID : Int)
  | leaveVoice (userID : Int) (username : String) (channelID : Int)
  | signal (fromUserID : Int) (fromName : String) (targetID : String)
      (channelID : Int) (payload : String)
  | error (message : String)
deriving DecidableEq

/-- The mutable fields of `realtime.Client`: identity, current text
channel, current voice channel, the bounded outbound queue, and whether
the transport has been closed. -/
structure ClientState where
  user : User
  channelID : Int
  voiceChannelID : Int
  send : List Frame
  closed : Bool
deriving DecidableEq

/-- The `realtime.Hub` state plus the per-client state and the store. -/
structure HubState where
  db : DB
  clients : List Nat
  channels : Int → List Nat
  clientStates : Nat → ClientState

/-- Constant `maxMessageSize` in hub.go (16 * 1024 bytes). -/
def maxMessageSize : Nat := 16 * 1024

/-- Constant `messageHistLimit` in hub.go. -/
def messageHistLimit : Int := 50

/-- Constant `maxPayloadSize` in the client file (8 * 1024): the websocket read
limit. -/
def maxPayloadSize : Nat := 8 * 1024

/-- The outbound channel capacity from `newClient` (`make(chan []byte, 256)`). -/
def sendCap : Nat := 256

/-- The whitespace predicate of Go's `strings.TrimSpace` restricted to
Latin-1 (space, tab, newline, vertical tab, form feed, carriage return,
NEL, NBSP); code points of class Zs above U+00FF are not modelled, which
no claim here exercises. -/
def isSpaceGo (c : Char) : Bool :=
  c = ' ' || c = '\t' || c = '\n' || c.val = 11 || c.val = 12 || c = '\r' ||
    c.val = 0x85 || c.val = 0xA0

/-- Trim `isSpaceGo` characters from both ends of a character list. -/
def trimChars (l : List Char) : List Char :=
  ((l.dropWhile isSpaceGo).reverse.dropWhile isSpaceGo).reverse

/-- Go `strings.TrimSpace`. -/
def trimSpace (s : String) : String := String.mk (trimChars s.data)

/-- UTF-8 byte width of one character (Go `len` counts bytes). -/
def charLen (c : Char) : Nat :=
  if c.val < 0x80 then 1 else if c.val < 0x800 then 2
  else if c.val < 0x10000 then 3 else 4

/-- Go `len(s)` — the UTF-8 byte length. -/
def goLen (s : String) : Nat := s.data.foldl (fun n c => n + charLen c) 0

/-- Look a user id up in the `users` table. -/
def lookupUser (db : DB) (uid : Int) : Option String :=
  (db.users.find? (fun p => p.1 = uid)).map (fun p => p.2)

/-- The `JOIN users u ON u.id = m.user_id` step: a row becomes a
`Message` exactly when its author exists in the `users` table. -/
def rowToMessage (db : DB) (r : MsgRow) : Option Message :=
  match lookupUser db r.userID with
  | none => none
  | some name => some
      { id := r.id, channelID := r.channelID, userID := r.userID,
        username := name, content := r.content, createdAt := r.createdAt }

/-- Forget the joined username again (for relating a `Message` back to
the stored row). -/
def msgRowOf (m : Message) : MsgRow :=
  { id := m.id, channelID := m.channelID, userID := m.userID,
    content := m.content, createdAt := m.createdAt }

/-- Insert into a list kept sorted by descending id (the `ORDER BY m.id
DESC` of `GetMessages`). -/
def insertByIdDesc (m : Message) : List Message → List Message
  | [] => [m]
  | x :: xs => if x.id ≤ m.id then m :: x :: xs else x :: insertByIdDesc m xs

/-- Sort by descending id. -/
def sortByIdDesc : List Message → List Message
  | [] => []
  | x :: xs => insertByIdDesc x (sortByIdDesc xs)

/-- Function `database.GetMessages`: newest-first query (join with `users`,
`ORDER BY m.id DESC LIMIT ?`), then an in-place reversal to oldest-first;
a non-positive limit defaults to 50. -/
def GetMessages (db : DB) (channelID : Int) (limit : Int) :
    Except String (List Message) :=
  let lim := if limit ≤ 0 then (50 : Int) else limit
  if db.ioError then .error "query messages"
  else
    let rows := (db.messages.filter (fun r => r.channelID = channelID)).filterMap
      (rowToMessage db)
    .ok (((sortByIdDesc rows).take lim.toNat).reverse)

/-- Function `database.getMessageByID`: fetch one row joined with its author. -/
def getMessageByID (db : DB) (mid : Int) : Option Message :=
  (db.messages.find? (fun r => r.id = mid)).bind (rowToMessage db)

/-- Function `database.CreateMessage`: insert the row (the id and timestamp are
server-assigned), then read it back joined with the author.  An I/O
failure fails the insert and stores nothing; a missing author makes the
read-back fail after the row was inserted (SQLite's foreign keys are not
enforced by this code). -/
def CreateMessage (db : DB) (userID channelID : Int) (content : String) :
    Except String (Message × DB) :=
  if db.ioError then .error "create message: insert message"
  else
    let row : MsgRow :=
      { id := db.nextID, channelID := channelID, userID := userID,
        content := content, createdAt := db.now }
    let db' : DB :=
      { db with messages := db.messages ++ [row], nextID := db.nextID + 1 }
    match getMessageByID db' db.nextID with
    | none => .error "create message: fetch message"
    | some m => .ok (m, db')

/-- Method `Hub.loadHistory`. -/
def loadHistory (db : DB) (channelID : Int) : Except String (List Message) :=
  GetMessages db channelID messageHistLimit

/-- The `SELECT 1 FROM channels WHERE id = ?` existence probe of
`joinChannel` (fails on a missing row or a query error). -/
def channelExists (db : DB) (channelID : Int) : Bool :=
  db.channels.contains channelID

/-- Replace one client's state. -/
def setClientState (h : HubState) (c : Nat) (cs : ClientState) : HubState :=
  { h with clientStates := fun x => if x = c then cs else h.clientStates x }

/-- Effect of `conn.Close()` on one client's transport. -/
def setClosed (h : HubState) (c : Nat) : HubState :=
  setClientState h c { h.clientStates c with closed := true }

/-- Methods `Hub.addClient` plus `newClient`: register a fresh connection with
zeroed channel fields and an empty queue. -/
def registerClient (h : HubState) (c : Nat) (u : User) : HubState :=
  { h with
    clients := if h.clients.contains c then h.clients else h.clients ++ [c],
    clientStates := fun x => if x = c then
      { user := u, channelID := 0, voiceChannelID := 0, send := [], closed := false }
      else h.clientStates x }

/-- Method `Hub.removeClient`: drop the client from the client set and from
every channel's member set. -/
def removeClient (h : HubState) (c : Nat) : HubState :=
  { h with
    clients := h.clients.filter (fun x => x ≠ c),
    channels := fun ch => (h.channels ch).filter (fun x => x ≠ c) }

/-- Method `Hub.joinChannel`: reject a non-positive id, probe the store for the
channel, then under the lock remove the client from every member set and
insert it into the target channel's set, recording the id on the client.
(The insertion appends to a list the removal just cleared of `c`, which
is exactly a set insert.) -/
def joinChannel (h : HubState) (c : Nat) (channelID : Int) :
    Except String HubState :=
  if channelID ≤ 0 then .error "invalid channel id"
  else if h.db.ioError || !channelExists h.db channelID then
    .error "channel not found"
  else
    let removed : Int → List Nat := fun ch => (h.channels ch).filter (fun x => x ≠ c)
    .ok (setClientState
      { h with channels := fun ch =>
          if ch = channelID then removed ch ++ [c] else removed ch }
      c { h.clientStates c with channelID := channelID })

/-- One step of `Hub.broadcastToChannel`'s delivery loop: the
`select`/`default` enqueue — append when the queue has room, otherwise
`removeClient` plus `conn.Close()` on the slow member. -/
def deliverTo (h : HubState) (c : Nat) (data : Frame) : HubState :=
  if (h.clientStates c).send.length < sendCap then
    setClientState h c
      { h.clientStates c with send := (h.clientStates c).send ++ [data] }
  else
    setClosed (removeClient h c) c

/-- Method `Hub.broadcastToChannel`: snapshot the member set under the lock,
then deliver to each snapshotted member outside it. -/
def broadcastToChannel (h : HubState) (channelID : Int) (data : Frame) :
    HubState :=
  (h.channels channelID).foldl (fun st c => deliverTo st c data) h

/-- Method `Hub.markVoiceJoin`: text-channel join first, then record the voice
channel and broadcast the presence-joined event to the channel. -/
def markVoiceJoin (h : HubState) (c : Nat) (channelID : Int) :
    Except String HubState :=
  match joinChannel h c channelID with
  | .error e => .error e
  | .ok h1 =>
    .ok (broadcastToChannel
      (setClientState h1 c { h1.clientStates c with voiceChannelID := channelID })
      channelID
      (Frame.userJoinedVoice (h1.clientStates c).user.id
        (h1.clientStates c).user.username channelID))

/-- The `if channelID <= 0 { channelID = client.voiceChannelID }`
defaulting at the top of `Hub.markVoiceLeave`. -/
def resolveLeaveChannel (h : HubState) (c : Nat) (channelID : Int) : Int :=
  if channelID ≤ 0 then (h.clientStates c).voiceChannelID else channelID

/-- Method `Hub.markVoiceLeave`: default a non-positive argument to the
client's recorded voice channel; if that is still non-positive, do
nothing; otherwise clear the voice field and broadcast the presence-left
event to the resolved channel.  (The Go function's only error path is an
impossible marshal failure, so it is total here.) -/
def markVoiceLeave (h : HubState) (c : Nat) (channelID : Int) : HubState :=
  if resolveLeaveChannel h c channelID ≤ 0 then h
  else
    broadcastToChannel
      (setClientState h c { h.clientStates c with voiceChannelID := 0 })
      (resolveLeaveChannel h c channelID)
      (Frame.leaveVoice (h.clientStates c).user.id
        (h.clientStates c).user.username (resolveLeaveChannel h c channelID))

/-- The channel-resolution chain of `Hub.relaySignal`: the explicit id
if positive, else the current voice channel, else the current text
channel. -/
def resolveSignalChannel (h : HubState) (c : Nat) (evt : InEvent) : Int :=
  let cid1 := if evt.channelID ≤ 0 then (h.clientStates c).voiceChannelID
    else evt.channelID
  if cid1 ≤ 0 then (h.clientStates c).channelID else cid1

/-- Method `Hub.relaySignal`: resolve the channel, require a non-empty payload,
rewrap with sender identity and target id, and broadcast to the whole
channel. -/
def relaySignal (h : HubState) (c : Nat) (evt : InEvent) :
    Except String HubState :=
  if resolveSignalChannel h c evt ≤ 0 then .error "channel is required for signal"
  else if evt.payload.isEmpty then .error "signal payload is required"
  else
    .ok (broadcastToChannel h (resolveSignalChannel h c evt)
      (Frame.signal (h.clientStates c).user.id (h.clientStates c).user.username
        evt.targetID (resolveSignalChannel h c evt) evt.payload))

/-- Method `Hub.createAndBroadcastMessage`: validate the channel id, trim the
body, reject an empty or oversized body, persist via the store, then
broadcast the canonical stored message. -/
def createAndBroadcastMessage (h : HubState) (c : Nat) (channelID : Int)
    (content : String) : Except String HubState :=
  if channelID ≤ 0 then .error "invalid channel id"
  else if trimSpace content = "" then .error "message content is required"
  else if goLen (trimSpace content) > maxMessageSize then
    .error "message content too long"
  else
    match CreateMessage h.db (h.clientStates c).user.id channelID
        (trimSpace content) with
    | .error e => .error e
    | .ok (msg, db') =>
      .ok (broadcastToChannel { h with db := db' } channelID
        (Frame.newMessage msg))

/-- Method `Hub.sendError`: best-effort enqueue of an error frame — the
`select`/`default` drops it silently when the queue is full. -/
def sendError (h : HubState) (c : Nat) (message : String) : HubState :=
  if (h.clientStates c).send.length < sendCap then
    setClientState h c
      { h.clientStates c with send := (h.clientStates c).send ++ [Frame.error message] }
  else h

/-- The blocking `c.send <- payload` of the `join_channel` handler,
modelled as an append (blocking is outside this embedding). -/
def pushOwn (h : HubState) (c : Nat) (f : Frame) : HubState :=
  setClientState h c
    { h.clientStates c with send := (h.clientStates c).send ++ [f] }

/-- The event switch of `Client.readPump`. -/
def dispatchEvent (h : HubState) (c : Nat) (evt : InEvent) : HubState :=
  if evt.type = "join_channel" then
    match joinChannel h c evt.channelID with
    | .error e => sendError h c e
    | .ok h1 =>
      match loadHistory h1.db evt.channelID with
      | .error _ => sendError h1 c "failed to load channel history"
      | .ok msgs => pushOwn h1 c (Frame.channelHistory evt.channelID msgs)
  else if evt.type = "send_message" then
    match createAndBroadcastMessage h c
        (if evt.channelID = 0 then (h.clientStates c).channelID else evt.channelID)
        evt.content with
    | .error e => sendError h c e
    | .ok h1 => h1
  else if evt.type = "join_voice" then
    match markVoiceJoin h c evt.channelID with
    | .error e => sendError h c e
    | .ok h1 => h1
  else if evt.type = "leave_voice" then
    markVoiceLeave h c evt.channelID
  else if evt.type = "signal" then
    match relaySignal h c evt with
    | .error e => sendError h c e
    | .ok h1 => h1
  else sendError h c "unsupported event type"

/-- The deferred teardown of `Client.readPump`: voice-leave side effect
(with the client's recorded voice channel), removal from every hub map,
transport close. -/
def teardown (h : HubState) (c : Nat) : HubState :=
  setClosed (removeClient (markVoiceLeave h c ((h.clientStates c).voiceChannelID)) c) c

/-- One raw inbound websocket frame: its byte size and what JSON
decoding of it yields (`none` for a structurally invalid frame). -/
structure RawFrame where
  size : Nat
  decoded : Option InEvent

/-- Method `Client.readPump`: the transport read fails on a frame above the
read limit (`SetReadLimit` makes the websocket library return an error,
breaking the loop into the deferred teardown); an undecodable frame
yields one error frame and the loop continues; otherwise the event is
dispatched.  The list is the sequence of frames the transport delivers
before the peer closes; the end of the list is the final read error. -/
def readPump (h : HubState) (c : Nat) : List RawFrame → HubState
  | [] => teardown h c
  | f :: fs =>
    if f.size > maxPayloadSize then teardown h c
    else
      match f.decoded with
      | none => readPump (sendError h c "invalid event payload") c fs
      | some evt => readPump (dispatchEvent h c evt) c fs

/-! ## Concrete fixtures (used to evaluate the theorems on real inputs) -/

/-- Extract the success state of a hub operation (used only to name
concretely computed states). -/
def okOr (e : Except String HubState) (d : HubState) : HubState :=
  match e with
  | .ok h => h
  | .error _ => d

def wUserA : User := { id := 1, username := "alice" }

def wUserB : User := { id := 2, username := "bob" }

def wRow1 : MsgRow :=
  { id := 1, channelID := 7, userID := 1, content := "first", createdAt := 10 }

def wRow2 : MsgRow :=
  { id := 2, channelID := 7, userID := 2, content := "second", createdAt := 20 }

def wRow3 : MsgRow :=
  { id := 3, channelID := 5, userID := 1, content := "other", createdAt := 30 }

def wDB : DB :=
  { channels := [1, 2, 5, 7], users := [(1, "alice"), (2, "bob")],
    messages := [wRow1, wRow2, wRow3], nextID := 4, now := 100, ioError := false }

def wClient (u : User) : ClientState :=
  { user := u, channelID := 0, voiceChannelID := 0, send := [], closed := false }

/-- Two live connections, both in text channel 7, connection 1 also in
voice channel 7. -/
def wHub : HubState :=
  { db := wDB, clients := [1, 2],
    channels := fun ch => if ch = 7 then [1, 2] else [],
    clientStates := fun c =>
      if c = 1 then { wClient wUserA with channelID := 7, voiceChannelID := 7 }
      else if c = 2 then { wClient wUserB with channelID := 7 }
      else wClient { id := 0, username := "" } }

/-- Like `wHub` but connection 2's outbound queue is saturated. -/
def wHubFull : HubState :=
  { wHub with clientStates := fun c =>
      if c = 2 then
        { wClient wUserB with
            channelID := 7
            send := List.replicate sendCap (Frame.error "x") }
      else wHub.clientStates c }

/-- Two live connections, neither holding any voice membership;
connection 2 is the sole text member of channel 5. -/
def wHubNoVoice : HubState :=
  { db := wDB, clients := [1, 2],
    channels := fun ch => if ch = 5 then [2] else [],
    clientStates := fun c =>
      if c = 1 then wClient wUserA
      else if c = 2 then wClient wUserB
      else wClient { id := 0, username := "" } }

/-- State `wHub` after connection 1 joins channel 1. -/
def wJoin1 : HubState := okOr (joinChannel wHub 1 1) wHub

/-- State `wJoin1` after connection 1 joins channel 2. -/
def wJoin2 : HubState := okOr (joinChannel wJoin1 1 2) wHub

/-- An inbound frame above the websocket read limit. -/
def wBigFrame : RawFrame :=
  { size := 8193,
    decoded := some
      { type := "join_channel", channelID := 7, content := "",
        targetID := "", payload := "" } }

/-- An inbound frame that fails JSON decoding. -/
def wBadFrame : RawFrame := { size := 10, decoded := none }

/-- A signal event with an explicit channel id. -/
def wSigExplicit : InEvent :=
  { type := "signal", channelID := 5, content := "", targetID := "peer",
    payload := "blob" }

/-- A signal event with no explicit channel id. -/
def wSigDefault : InEvent :=
  { type := "signal", channelID := 0, content := "", targetID := "peer",
    payload := "blob" }

/-- A signal event with an empty payload. -/
def wSigEmpty : InEvent :=
  { type := "signal", channelID := 0, content := "", targetID := "peer",
    payload := "" }

/-- Extract the messages of a successful history load. -/
def okOrMsgs (e : Except String (List Message)) : List Message :=
  match e with
  | .ok m => m
  | .error _ => []

/-- A join_channel event for channel 7. -/
def wJoinEvt : InEvent :=
  { type := "join_channel", channelID := 7, content := "", targetID := "",
    payload := "" }

/-- State `wHub` after connection 1 joins channel 7. -/
def wJoin7 : HubState := okOr (joinChannel wHub 1 7) wHub

/-- The history channel 7 yields on `wDB`. -/
def wHist : List Message := okOrMsgs (loadHistory wJoin7.db 7)

/-- State `wHub` after connection 1 sends "  hi  " to channel 7. -/
def wSend : HubState := okOr (createAndBroadcastMessage wHub 1 7 "  hi  ") wHub

/-- A send_message event carrying no channel id. -/
def wMsgEvtNoCh : InEvent :=
  { type := "send_message", channelID := 0, content := "hi", targetID := "",
    payload := "" }

/-- A send_message event for channel 7. -/
def wMsgEvtCh : InEvent :=
  { type := "send_message", channelID := 7, content := "hi", targetID := "",
    payload := "" }

/-- A send_message event whose body is all whitespace. -/
def wMsgEvtBlank : InEvent :=
  { type := "send_message", channelID := 7, content := "   ", targetID := "",
    payload := "" }

/-- State `wHub` with the store failing every call. -/
def wHubDown : HubState := { wHub with db := { wDB with ioError := true } }

/-! ## Basic state lemmas -/

@[simp] theorem setClientState_channels (h : HubState) (c : Nat) (cs : ClientState) :
    (setClientState h c cs).channels = h.channels := rfl

@[simp] theorem setClientState_clients (h : HubState) (c : Nat) (cs : ClientState) :
    (setClientState h c cs).clients = h.clients := rfl

@[simp] theorem setClientState_db (h : HubState) (c : Nat) (cs : ClientState) :
    (setClientState h c cs).db = h.db := rfl

theorem setClientState_clientStates_self (h : HubState) (c : Nat) (cs : ClientState) :
    (setClientState h c cs).clientStates c = cs := by
  simp [setClientState]

theorem setClientState_clientStates_ne (h : HubState) (c : Nat) (cs : ClientState)
    (d : Nat) (hne : d ≠ c) :
    (setClientState h c cs).clientStates d = h.clientStates d := by
  simp [setClientState, hne]

@[simp] theorem removeClient_db (h : HubState) (c : Nat) :
    (removeClient h c).db = h.db := rfl

@[simp] theorem removeClient_clientStates (h : HubState) (c : Nat) :
    (removeClient h c).clientStates = h.clientStates := rfl

theorem removeClient_clients_mem (h : HubState) (c d : Nat) :
    d ∈ (removeClient h c).clients ↔ d ∈ h.clients ∧ d ≠ c := by
  simp [removeClient, List.mem_filter]

theorem removeClient_channels_mem (h : HubState) (c d : Nat) (ch : Int) :
    d ∈ (removeClient h c).channels ch ↔ d ∈ h.channels ch ∧ d ≠ c := by
  simp [removeClient, List.mem_filter]

/-! ## Delivery-step lemmas (`deliverTo` = one member of a broadcast) -/

theorem deliverTo_db (h : HubState) (c : Nat) (data : Frame) :
    (deliverTo h c data).db = h.db := by
  unfold deliverTo
  split <;> rfl

theorem deliverTo_clientStates_ne (h : HubState) (c : Nat) (data : Frame)
    (d : Nat) (hne : d ≠ c) :
    (deliverTo h c data).clientStates d = h.clientStates d := by
  unfold deliverTo
  split
  · exact setClientState_clientStates_ne _ _ _ _ hne
  · show (setClosed (removeClient h c) c).clientStates d = _
    unfold setClosed
    rw [setClientState_clientStates_ne _ _ _ _ hne]
    rfl

theorem deliverTo_clients_not_mem (h : HubState) (c : Nat) (data : Frame)
    (d : Nat) (hd : d ∉ h.clients) : d ∉ (deliverTo h c data).clients := by
  unfold deliverTo
  split
  · exact hd
  · intro hmem
    exact hd ((removeClient_clients_mem h c d).mp hmem).1

theorem deliverTo_channels_not_mem (h : HubState) (c : Nat) (data : Frame)
    (d : Nat) (ch : Int) (hd : d ∉ h.channels ch) :
    d ∉ (deliverTo h c data).channels ch := by
  unfold deliverTo
  split
  · exact hd
  · intro hmem
    exact hd ((removeClient_channels_mem h c d ch).mp hmem).1

theorem deliverTo_closed (h : HubState) (c : Nat) (data : Frame) (d : Nat)
    (hc : ((h.clientStates d).closed = true)) :
    ((deliverTo h c data).clientStates d).closed = true := by
  by_cases hdc : d = c
  · subst hdc
    unfold deliverTo
    split
    · rw [setClientState_clientStates_self]
      exact hc
    · show ((setClosed (removeClient h d) d).clientStates d).closed = true
      unfold setClosed
      rw [setClientState_clientStates_self]
  · rw [deliverTo_clientStates_ne h c data d hdc]
    exact hc

/-- The delivery loop of `broadcastToChannel` over an explicit member
snapshot. -/
def deliverAll (st : HubState) (l : List Nat) (data : Frame) : HubState :=
  l.foldl (fun s c => deliverTo s c data) st

theorem broadcastToChannel_eq_deliverAll (h : HubState) (ch : Int) (data : Frame) :
    broadcastToChannel h ch data = deliverAll h (h.channels ch) data := rfl

theorem deliverAll_cons (st : HubState) (c : Nat) (t : List Nat) (data : Frame) :
    deliverAll st (c :: t) data = deliverAll (deliverTo st c data) t data := rfl

theorem deliverAll_db (data : Frame) :
    ∀ (l : List Nat) (st : HubState), (deliverAll st l data).db = st.db
  | [], _ => rfl
  | c :: t, st => by
    rw [deliverAll_cons, deliverAll_db data t, deliverTo_db]

theorem deliverAll_clientStates_not_mem (data : Frame) (d : Nat) :
    ∀ (l : List Nat) (st : HubState), d ∉ l →
      (deliverAll st l data).clientStates d = st.clientStates d
  | [], _, _ => rfl
  | c :: t, st, hd => by
    have h1 : d ≠ c := fun e => hd (e ▸ List.mem_cons_self c t)
    have h2 : d ∉ t := fun e => hd (List.mem_cons_of_mem c e)
    rw [deliverAll_cons, deliverAll_clientStates_not_mem data d t _ h2,
      deliverTo_clientStates_ne st c data d h1]

theorem deliverAll_clients_not_mem (data : Frame) (d : Nat) :
    ∀ (l : List Nat) (st : HubState), d ∉ st.clients →
      d ∉ (deliverAll st l data).clients
  | [], _, hd => hd
  | c :: t, st, hd => by
    rw [deliverAll_cons]
    exact deliverAll_clients_not_mem data d t _
      (deliverTo_clients_not_mem st c data d hd)

theorem deliverAll_channels_not_mem (data : Frame) (d : Nat) (ch : Int) :
    ∀ (l : List Nat) (st : HubState), d ∉ st.channels ch →
      d ∉ (deliverAll st l data).channels ch
  | [], _, hd => hd
  | c :: t, st, hd => by
    rw [deliverAll_cons]
    exact deliverAll_channels_not_mem data d ch t _
      (deliverTo_channels_not_mem st c data d ch hd)

theorem deliverAll_closed (data : Frame) (d : Nat) :
    ∀ (l : List Nat) (st : HubState), ((st.clientStates d).closed = true) →
      ((deliverAll st l data).clientStates d).closed = true
  | [], _, hd => hd
  | c :: t, st, hd => by
    rw [deliverAll_cons]
    exact deliverAll_closed data d t _ (deliverTo_closed st c data d hd)

theorem deliverAll_mem_room (data : Frame) (d : Nat) :
    ∀ (l : List Nat) (st : HubState), l.Nodup → d ∈ l →
      (st.clientStates d).send.length < sendCap →
      (deliverAll st l data).clientStates d =
        { st.clientStates d with send := (st.clientStates d).send ++ [data] }
  | c :: t, st, hnd, hd, hroom => by
    obtain ⟨hct, hndt⟩ := List.nodup_cons.mp hnd
    rw [deliverAll_cons]
    by_cases hdc : d = c
    · subst hdc
      have hstep : (deliverTo st d data).clientStates d =
          { st.clientStates d with send := (st.clientStates d).send ++ [data] } := by
        unfold deliverTo
        rw [if_pos hroom, setClientState_clientStates_self]
      rw [deliverAll_clientStates_not_mem data d t _ hct, hstep]
    · have hdt : d ∈ t := (List.mem_cons.mp hd).resolve_left hdc
      have heq := deliverTo_clientStates_ne st c data d hdc
      rw [deliverAll_mem_room data d t _ hndt hdt (by rw [heq]; exact hroom), heq]

theorem deliverAll_mem_full (data : Frame) (d : Nat) :
    ∀ (l : List Nat) (st : HubState), l.Nodup → d ∈ l →
      ¬ (st.clientStates d).send.length < sendCap →
      d ∉ (deliverAll st l data).clients ∧
      (∀ ch, d ∉ (deliverAll st l data).channels ch) ∧
      ((deliverAll st l data).clientStates d).closed = true
  | c :: t, st, hnd, hd, hfull => by
    obtain ⟨hct, hndt⟩ := List.nodup_cons.mp hnd
    rw [deliverAll_cons]
    by_cases hdc : d = c
    · subst hdc
      have hstep : deliverTo st d data = setClosed (removeClient st d) d := by
        unfold deliverTo
        rw [if_neg hfull]
      rw [hstep]
      refine ⟨?_, ?_, ?_⟩
      · apply deliverAll_clients_not_mem
        intro hmem
        exact ((removeClient_clients_mem st d d).mp hmem).2 rfl
      · intro ch
        apply deliverAll_channels_not_mem
        intro hmem
        exact ((removeClient_channels_mem st d d ch).mp hmem).2 rfl
      · apply deliverAll_closed
        show ((setClosed (removeClient st d) d).clientStates d).closed = true
        unfold setClosed
        rw [setClientState_clientStates_self]
    · have hdt : d ∈ t := (List.mem_cons.mp hd).resolve_left hdc
      have heq := deliverTo_clientStates_ne st c data d hdc
      exact deliverAll_mem_full data d t _ hndt hdt (by rw [heq]; exact hfull)

/-! ## Broadcast lemmas -/

theorem broadcast_member_room (h : HubState) (ch : Int) (data : Frame) (d : Nat)
    (hnd : (h.channels ch).Nodup) (hd : d ∈ h.channels ch)
    (hroom : (h.clientStates d).send.length < sendCap) :
    (broadcastToChannel h ch data).clientStates d =
      { h.clientStates d with send := (h.clientStates d).send ++ [data] } :=
  deliverAll_mem_room data d (h.channels ch) h hnd hd hroom

theorem broadcast_member_full (h : HubState) (ch : Int) (data : Frame) (d : Nat)
    (hnd : (h.channels ch).Nodup) (hd : d ∈ h.channels ch)
    (hfull : ¬ (h.clientStates d).send.length < sendCap) :
    d ∉ (broadcastToChannel h ch data).clients ∧
    (∀ ch2, d ∉ (broadcastToChannel h ch data).channels ch2) ∧
    ((broadcastToChannel h ch data).clientStates d).closed = true :=
  deliverAll_mem_full data d (h.channels ch) h hnd hd hfull

theorem broadcast_nonmember (h : HubState) (ch : Int) (data : Frame) (d : Nat)
    (hd : d ∉ h.channels ch) :
    (broadcastToChannel h ch data).clientStates d = h.clientStates d :=
  deliverAll_clientStates_not_mem data d (h.channels ch) h hd

theorem broadcast_db (h : HubState) (ch : Int) (data : Frame) :
    (broadcastToChannel h ch data).db = h.db :=
  deliverAll_db data (h.channels ch) h

theorem deliverTo_channels_sub (h : HubState) (c : Nat) (data : Frame)
    (d : Nat) (ch : Int) (hm : d ∈ (deliverTo h c data).channels ch) :
    d ∈ h.channels ch := by
  unfold deliverTo at hm
  split at hm
  · exact hm
  · exact ((removeClient_channels_mem h c d ch).mp hm).1

theorem deliverAll_channels_sub (data : Frame) (d : Nat) (ch : Int) :
    ∀ (l : List Nat) (st : HubState),
      d ∈ (deliverAll st l data).channels ch → d ∈ st.channels ch
  | [], _, hm => hm
  | c :: t, st, hm => by
    rw [deliverAll_cons] at hm
    exact deliverTo_channels_sub st c data d ch
      (deliverAll_channels_sub data d ch t _ hm)

theorem broadcast_channels_sub (h : HubState) (ch : Int) (data : Frame)
    (d : Nat) (ch2 : Int) (hm : d ∈ (broadcastToChannel h ch data).channels ch2) :
    d ∈ h.channels ch2 :=
  deliverAll_channels_sub data d ch2 (h.channels ch) h hm

/-! ## `joinChannel` characterization -/

theorem joinChannel_inv (h : HubState) (c : Nat) (A : Int) (h1 : HubState)
    (hok : joinChannel h c A = Except.ok h1) :
    0 < A ∧ h1 = setClientState
      { h with channels := fun ch =>
          if ch = A then (h.channels ch).filter (fun x => x ≠ c) ++ [c]
          else (h.channels ch).filter (fun x => x ≠ c) }
      c { h.clientStates c with channelID := A } := by
  unfold joinChannel at hok
  by_cases hA : A ≤ 0
  · rw [if_pos hA] at hok
    exact absurd hok (by simp)
  · rw [if_neg hA] at hok
    by_cases hE : h.db.ioError || !channelExists h.db A
    · rw [if_pos hE] at hok
      exact absurd hok (by simp)
    · rw [if_neg hE] at hok
      simp only [Except.ok.injEq] at hok
      exact ⟨lt_of_not_le hA, hok.symm⟩

theorem joinChannel_channels_mem (h : HubState) (c : Nat) (A : Int) (h1 : HubState)
    (hok : joinChannel h c A = Except.ok h1) (d : Nat) (ch : Int) :
    d ∈ h1.channels ch ↔ ((d = c ∧ ch = A) ∨ (d ≠ c ∧ d ∈ h.channels ch)) := by
  obtain ⟨-, rfl⟩ := joinChannel_inv h c A h1 hok
  show d ∈ (if ch = A then (h.channels ch).filter (fun x => x ≠ c) ++ [c]
    else (h.channels ch).filter (fun x => x ≠ c)) ↔ _
  by_cases hch : ch = A
  · rw [if_pos hch]
    simp only [List.mem_append, List.mem_filter, List.mem_singleton,
      decide_eq_true_eq]
    tauto
  · rw [if_neg hch]
    simp only [List.mem_filter, decide_eq_true_eq]
    tauto

theorem joinChannel_db (h : HubState) (c : Nat) (A : Int) (h1 : HubState)
    (hok : joinChannel h c A = Except.ok h1) : h1.db = h.db := by
  obtain ⟨-, rfl⟩ := joinChannel_inv h c A h1 hok
  rfl

theorem joinChannel_clients (h : HubState) (c : Nat) (A : Int) (h1 : HubState)
    (hok : joinChannel h c A = Except.ok h1) : h1.clients = h.clients := by
  obtain ⟨-, rfl⟩ := joinChannel_inv h c A h1 hok
  rfl

theorem joinChannel_clientStates_self (h : HubState) (c : Nat) (A : Int) (h1 : HubState)
    (hok : joinChannel h c A = Except.ok h1) :
    h1.clientStates c = { h.clientStates c with channelID := A } := by
  obtain ⟨-, rfl⟩ := joinChannel_inv h c A h1 hok
  rw [setClientState_clientStates_self]

theorem joinChannel_clientStates_ne (h : HubState) (c : Nat) (A : Int) (h1 : HubState)
    (hok : joinChannel h c A = Except.ok h1) (d : Nat) (hne : d ≠ c) :
    h1.clientStates d = h.clientStates d := by
  obtain ⟨-, rfl⟩ := joinChannel_inv h c A h1 hok
  rw [setClientState_clientStates_ne _ _ _ _ hne]

/-! ## The text-membership uniqueness invariant (claim C1) -/

/-- A connection belongs to at most one entry of the text-channel
membership index. -/
def textUnique (h : HubState) : Prop :=
  ∀ (c : Nat) (ch1 ch2 : Int),
    c ∈ h.channels ch1 → c ∈ h.channels ch2 → ch1 = ch2

theorem textUnique_mono (h h' : HubState)
    (hsub : ∀ (d : Nat) (ch : Int), d ∈ h'.channels ch → d ∈ h.channels ch)
    (ht : textUnique h) : textUnique h' :=
  fun d ch1 ch2 m1 m2 => ht d ch1 ch2 (hsub d ch1 m1) (hsub d ch2 m2)

theorem textUnique_of_channels_eq (h h' : HubState)
    (he : h'.channels = h.channels) (ht : textUnique h) : textUnique h' :=
  textUnique_mono h h' (fun d ch => by rw [he]; exact id) ht

theorem textUnique_joinChannel (h : HubState) (c : Nat) (A : Int) (h1 : HubState)
    (hok : joinChannel h c A = Except.ok h1) (ht : textUnique h) : textUnique h1 := by
  intro d ch1 ch2 m1 m2
  rw [joinChannel_channels_mem h c A h1 hok] at m1 m2
  rcases m1 with ⟨hdc1, rfl⟩ | ⟨hne1, hm1⟩
  · rcases m2 with ⟨-, rfl⟩ | ⟨hne2, -⟩
    · rfl
    · exact absurd hdc1 hne2
  · rcases m2 with ⟨hdc2, rfl⟩ | ⟨-, hm2⟩
    · exact absurd hdc2 hne1
    · exact ht d ch1 ch2 hm1 hm2

theorem textUnique_broadcast (h : HubState) (ch : Int) (data : Frame)
    (ht : textUnique h) : textUnique (broadcastToChannel h ch data) :=
  textUnique_mono h _ (fun d ch2 => broadcast_channels_sub h ch data d ch2) ht

theorem textUnique_removeClient (h : HubState) (c : Nat)
    (ht : textUnique h) : textUnique (removeClient h c) :=
  textUnique_mono h _ (fun d ch hm => ((removeClient_channels_mem h c d ch).mp hm).1) ht

theorem textUnique_sendError (h : HubState) (c : Nat) (msg : String)
    (ht : textUnique h) : textUnique (sendError h c msg) := by
  unfold sendError
  split
  · exact textUnique_of_channels_eq h _ rfl ht
  · exact ht

theorem textUnique_markVoiceLeave (h : HubState) (c : Nat) (channelID : Int)
    (ht : textUnique h) : textUnique (markVoiceLeave h c channelID) := by
  unfold markVoiceLeave
  split
  · exact ht
  · exact textUnique_broadcast _ _ _ (textUnique_of_channels_eq h _ rfl ht)

theorem textUnique_markVoiceJoin (h : HubState) (c : Nat) (channelID : Int)
    (h1 : HubState) (hok : markVoiceJoin h c channelID = Except.ok h1)
    (ht : textUnique h) : textUnique h1 := by
  unfold markVoiceJoin at hok
  cases hj : joinChannel h c channelID with
  | error e => rw [hj] at hok; exact absurd hok (by simp)
  | ok hx =>
    rw [hj] at hok
    simp only [Except.ok.injEq] at hok
    subst hok
    exact textUnique_broadcast _ _ _
      (textUnique_of_channels_eq hx _ rfl
        (textUnique_joinChannel h c channelID hx hj ht))

theorem textUnique_relaySignal (h : HubState) (c : Nat) (evt : InEvent)
    (h1 : HubState) (hok : relaySignal h c evt = Except.ok h1)
    (ht : textUnique h) : textUnique h1 := by
  unfold relaySignal at hok
  split at hok
  · exact absurd hok (by simp)
  · split at hok
    · exact absurd hok (by simp)
    · simp only [Except.ok.injEq] at hok
      subst hok
      exact textUnique_broadcast _ _ _ ht

theorem textUnique_createAndBroadcastMessage (h : HubState) (c : Nat)
    (channelID : Int) (content : String) (h1 : HubState)
    (hok : createAndBroadcastMessage h c channelID content = Except.ok h1)
    (ht : textUnique h) : textUnique h1 := by
  unfold createAndBroadcastMessage at hok
  split at hok
  · exact absurd hok (by simp)
  · split at hok
    · exact absurd hok (by simp)
    · split at hok
      · exact absurd hok (by simp)
      · split at hok
        · exact absurd hok (by simp)
        · simp only [Except.ok.injEq] at hok
          subst hok
          exact textUnique_broadcast _ _ _
            (textUnique_of_channels_eq h _ rfl ht)

theorem textUnique_pushOwn (h : HubState) (c : Nat) (f : Frame)
    (ht : textUnique h) : textUnique (pushOwn h c f) :=
  textUnique_of_channels_eq h _ rfl ht

theorem textUnique_dispatchEvent (h : HubState) (c : Nat) (evt : InEvent)
    (ht : textUnique h) : textUnique (dispatchEvent h c evt) := by
  unfold dispatchEvent
  split_ifs
  · cases hj : joinChannel h c evt.channelID with
    | error e => exact textUnique_sendError h c e ht
    | ok hx =>
      have htx := textUnique_joinChannel h c evt.channelID hx hj ht
      show textUnique (match loadHistory hx.db evt.channelID with
        | Except.error _ => sendError hx c "failed to load channel history"
        | Except.ok msgs => pushOwn hx c (Frame.channelHistory evt.channelID msgs))
      cases loadHistory hx.db evt.channelID with
      | error e => exact textUnique_sendError hx c _ htx
      | ok msgs => exact textUnique_pushOwn hx c _ htx
  · cases hm : createAndBroadcastMessage h c (h.clientStates c).channelID
      evt.content with
    | error e => exact textUnique_sendError h c e ht
    | ok h1 => exact textUnique_createAndBroadcastMessage h c _ _ h1 hm ht
  · cases hm : createAndBroadcastMessage h c evt.channelID evt.content with
    | error e => exact textUnique_sendError h c e ht
    | ok h1 => exact textUnique_createAndBroadcastMessage h c _ _ h1 hm ht
  · cases hv : markVoiceJoin h c evt.channelID with
    | error e => exact textUnique_sendError h c e ht
    | ok h1 => exact textUnique_markVoiceJoin h c evt.channelID h1 hv ht
  · exact textUnique_markVoiceLeave h c evt.channelID ht
  · cases hs : relaySignal h c evt with
    | error e => exact textUnique_sendError h c e ht
    | ok h1 => exact textUnique_relaySignal h c evt h1 hs ht
  · exact textUnique_sendError h c _ ht

theorem textUnique_teardown (h : HubState) (c : Nat)
    (ht : textUnique h) : textUnique (teardown h c) := by
  unfold teardown
  exact textUnique_of_channels_eq _ _ rfl
    (textUnique_removeClient _ c
      (textUnique_markVoiceLeave h c _ ht))

theorem textUnique_registerClient (h : HubState) (c : Nat) (u : User)
    (ht : textUnique h) : textUnique (registerClient h c u) :=
  textUnique_of_channels_eq h _ rfl ht

/-! ## Reachable hub states -/

/-- A freshly constructed hub (`NewHub`): no clients, no members. -/
def initialHub (db : DB) : HubState :=
  { db := db, clients := [], channels := fun _ => [],
    clientStates := fun _ =>
      { user := { id := 0, username := "" }, channelID := 0,
        voiceChannelID := 0, send := [], closed := false } }

/-- One state transition of the hub: a connection registers
(`ServeWS`/`addClient`), a connection's read loop dispatches one decoded
event, a connection tears down, or the external store changes between
hub operations. -/
inductive Step : HubState → HubState → Prop where
  | register (h : HubState) (c : Nat) (u : User) : Step h (registerClient h c u)
  | event (h : HubState) (c : Nat) (evt : InEvent) : Step h (dispatchEvent h c evt)
  | down (h : HubState) (c : Nat) : Step h (teardown h c)
  | dbTick (h : HubState) (db : DB) : Step h { h with db := db }

/-- Hub states reachable from a fresh hub by hub transitions. -/
inductive Reachable : HubState → Prop where
  | init (db : DB) : Reachable (initialHub db)
  | step {h h' : HubState} : Reachable h → Step h h' → Reachable h'

theorem textUnique_step (h h' : HubState) (hs : Step h h')
    (ht : textUnique h) : textUnique h' := by
  cases hs with
  | register c u => exact textUnique_registerClient h c u ht
  | event c evt => exact textUnique_dispatchEvent h c evt ht
  | down c => exact textUnique_teardown h c ht
  | dbTick db => exact textUnique_of_channels_eq h _ rfl ht

theorem textUnique_reachable (h : HubState) (hr : Reachable h) : textUnique h := by
  induction hr with
  | init db => intro c ch1 ch2 m1 m2; cases m1
  | step hr hs ih => exact textUnique_step _ _ hs ih

/-! ## `sendError`, `markVoiceLeave` and dispatch equations -/

theorem sendError_db (h : HubState) (c : Nat) (m : String) :
    (sendError h c m).db = h.db := by
  unfold sendError
  split <;> rfl

theorem sendError_clients (h : HubState) (c : Nat) (m : String) :
    (sendError h c m).clients = h.clients := by
  unfold sendError
  split <;> rfl

theorem sendError_channels (h : HubState) (c : Nat) (m : String) :
    (sendError h c m).channels = h.channels := by
  unfold sendError
  split <;> rfl

theorem sendError_clientStates_ne (h : HubState) (c : Nat) (m : String)
    (d : Nat) (hne : d ≠ c) :
    (sendError h c m).clientStates d = h.clientStates d := by
  unfold sendError
  split
  · exact setClientState_clientStates_ne _ _ _ _ hne
  · rfl

theorem sendError_room (h : HubState) (c : Nat) (m : String)
    (hroom : (h.clientStates c).send.length < sendCap) :
    (sendError h c m).clientStates c =
      { h.clientStates c with send := (h.clientStates c).send ++ [Frame.error m] } := by
  unfold sendError
  rw [if_pos hroom, setClientState_clientStates_self]

theorem sendError_full (h : HubState) (c : Nat) (m : String)
    (hfull : ¬ (h.clientStates c).send.length < sendCap) :
    sendError h c m = h := by
  unfold sendError
  rw [if_neg hfull]

theorem resolveLeaveChannel_self (h : HubState) (c : Nat) :
    resolveLeaveChannel h c ((h.clientStates c).voiceChannelID) =
      (h.clientStates c).voiceChannelID := by
  unfold resolveLeaveChannel
  split <;> rfl

theorem markVoiceLeave_nop (h : HubState) (c : Nat) (cid : Int)
    (hle : resolveLeaveChannel h c cid ≤ 0) : markVoiceLeave h c cid = h := by
  unfold markVoiceLeave
  rw [if_pos hle]

theorem markVoiceLeave_active (h : HubState) (c : Nat) (cid : Int)
    (hgt : ¬ resolveLeaveChannel h c cid ≤ 0) :
    markVoiceLeave h c cid =
      broadcastToChannel
        (setClientState h c { h.clientStates c with voiceChannelID := 0 })
        (resolveLeaveChannel h c cid)
        (Frame.leaveVoice (h.clientStates c).user.id
          (h.clientStates c).user.username (resolveLeaveChannel h c cid)) := by
  unfold markVoiceLeave
  rw [if_neg hgt]

theorem deliverTo_voice (h : HubState) (c : Nat) (data : Frame) (d : Nat) :
    ((deliverTo h c data).clientStates d).voiceChannelID =
      (h.clientStates d).voiceChannelID := by
  by_cases hdc : d = c
  · subst hdc
    unfold deliverTo
    split
    · rw [setClientState_clientStates_self]
    · show ((setClosed (removeClient h d) d).clientStates d).voiceChannelID = _
      unfold setClosed
      rw [setClientState_clientStates_self]
      rfl
  · rw [deliverTo_clientStates_ne h c data d hdc]

theorem deliverAll_voice (data : Frame) (d : Nat) :
    ∀ (l : List Nat) (st : HubState),
      ((deliverAll st l data).clientStates d).voiceChannelID =
        (st.clientStates d).voiceChannelID
  | [], _ => rfl
  | c :: t, st => by
    rw [deliverAll_cons, deliverAll_voice data d t _, deliverTo_voice]

theorem broadcast_voice (h : HubState) (ch : Int) (data : Frame) (d : Nat) :
    ((broadcastToChannel h ch data).clientStates d).voiceChannelID =
      (h.clientStates d).voiceChannelID :=
  deliverAll_voice data d (h.channels ch) h

theorem teardown_eq (h : HubState) (c : Nat) :
    teardown h c =
      setClosed (removeClient
        (markVoiceLeave h c ((h.clientStates c).voiceChannelID)) c) c := rfl

theorem resolveSignalChannel_explicit (h : HubState) (c : Nat) (evt : InEvent)
    (hgt : 0 < evt.channelID) :
    resolveSignalChannel h c evt = evt.channelID := by
  simp only [resolveSignalChannel]
  rw [if_neg (not_le.mpr hgt), if_neg (not_le.mpr hgt)]

theorem resolveSignalChannel_voice (h : HubState) (c : Nat) (evt : InEvent)
    (hle : evt.channelID ≤ 0) (hv : 0 < (h.clientStates c).voiceChannelID) :
    resolveSignalChannel h c evt = (h.clientStates c).voiceChannelID := by
  simp only [resolveSignalChannel]
  rw [if_pos hle, if_neg (not_le.mpr hv)]

theorem resolveSignalChannel_text (h : HubState) (c : Nat) (evt : InEvent)
    (hle : evt.channelID ≤ 0) (hv : (h.clientStates c).voiceChannelID ≤ 0) :
    resolveSignalChannel h c evt = (h.clientStates c).channelID := by
  simp only [resolveSignalChannel]
  rw [if_pos hle, if_pos hv]

theorem relaySignal_no_channel (h : HubState) (c : Nat) (evt : InEvent)
    (hle : resolveSignalChannel h c evt ≤ 0) :
    relaySignal h c evt = Except.error "channel is required for signal" := by
  unfold relaySignal
  rw [if_pos hle]

theorem relaySignal_empty_payload (h : HubState) (c : Nat) (evt : InEvent)
    (hgt : ¬ resolveSignalChannel h c evt ≤ 0) (hp : evt.payload.isEmpty = true) :
    relaySignal h c evt = Except.error "signal payload is required" := by
  unfold relaySignal
  rw [if_neg hgt, if_pos hp]

theorem relaySignal_ok_eq (h : HubState) (c : Nat) (evt : InEvent)
    (hgt : ¬ resolveSignalChannel h c evt ≤ 0) (hp : evt.payload.isEmpty = false) :
    relaySignal h c evt =
      Except.ok (broadcastToChannel h (resolveSignalChannel h c evt)
        (Frame.signal (h.clientStates c).user.id (h.clientStates c).user.username
          evt.targetID (resolveSignalChannel h c evt) evt.payload)) := by
  unfold relaySignal
  rw [if_neg hgt, if_neg (by rw [hp]; decide)]

theorem dispatchEvent_signal (h : HubState) (c : Nat) (evt : InEvent)
    (hty : evt.type = "signal") :
    dispatchEvent h c evt =
      match relaySignal h c evt with
      | Except.error e => sendError h c e
      | Except.ok h1 => h1 := by
  unfold dispatchEvent
  rw [if_neg (by rw [hty]; decide), if_neg (by rw [hty]; decide),
    if_neg (by rw [hty]; decide), if_neg (by rw [hty]; decide), if_pos hty]

theorem pushOwn_clientStates_self (h : HubState) (c : Nat) (f : Frame) :
    (pushOwn h c f).clientStates c =
      { h.clientStates c with send := (h.clientStates c).send ++ [f] } := by
  unfold pushOwn
  rw [setClientState_clientStates_self]

theorem pushOwn_clientStates_ne (h : HubState) (c : Nat) (f : Frame)
    (d : Nat) (hne : d ≠ c) :
    (pushOwn h c f).clientStates d = h.clientStates d := by
  unfold pushOwn
  exact setClientState_clientStates_ne _ _ _ _ hne

theorem dispatchEvent_join_ok (h : HubState) (c : Nat) (evt : InEvent)
    (h1 : HubState) (msgs : List Message)
    (hty : evt.type = "join_channel")
    (hj : joinChannel h c evt.channelID = Except.ok h1)
    (hl : loadHistory h1.db evt.channelID = Except.ok msgs) :
    dispatchEvent h c evt =
      pushOwn h1 c (Frame.channelHistory evt.channelID msgs) := by
  unfold dispatchEvent
  rw [if_pos hty, hj]
  show (match loadHistory h1.db evt.channelID with
    | Except.error _ => sendError h1 c "failed to load channel history"
    | Except.ok msgs2 => pushOwn h1 c (Frame.channelHistory evt.channelID msgs2)) = _
  rw [hl]

theorem dispatchEvent_send_message_error (h : HubState) (c : Nat) (evt : InEvent)
    (e : String) (hty : evt.type = "send_message")
    (he : createAndBroadcastMessage h c
      (if evt.channelID = 0 then (h.clientStates c).channelID else evt.channelID)
      evt.content = Except.error e) :
    dispatchEvent h c evt = sendError h c e := by
  unfold dispatchEvent
  rw [if_neg (by rw [hty]; decide), if_pos hty, he]

/-! ## Sorting and store lemmas -/

theorem insertByIdDesc_perm (m : Message) (l : List Message) :
    (insertByIdDesc m l).Perm (m :: l) := by
  induction l with
  | nil => exact List.Perm.refl _
  | cons x xs ih =>
    unfold insertByIdDesc
    split
    · exact List.Perm.refl _
    · exact (ih.cons x).trans (List.Perm.swap m x xs)

theorem sortByIdDesc_perm (l : List Message) : (sortByIdDesc l).Perm l := by
  induction l with
  | nil => exact List.Perm.refl _
  | cons x xs ih =>
    show (insertByIdDesc x (sortByIdDesc xs)).Perm (x :: xs)
    exact (insertByIdDesc_perm x (sortByIdDesc xs)).trans (ih.cons x)

theorem insertByIdDesc_pairwise (m : Message) (l : List Message)
    (hl : l.Pairwise (fun a b => b.id ≤ a.id)) :
    (insertByIdDesc m l).Pairwise (fun a b => b.id ≤ a.id) := by
  induction l with
  | nil =>
    unfold insertByIdDesc
    simp
  | cons x xs ih =>
    rw [List.pairwise_cons] at hl
    obtain ⟨hx, hxs⟩ := hl
    unfold insertByIdDesc
    split
    · rename_i hle
      refine List.Pairwise.cons ?_ (List.Pairwise.cons hx hxs)
      intro y hy
      rcases List.mem_cons.mp hy with rfl | hy2
      · exact hle
      · exact le_trans (hx y hy2) hle
    · rename_i hgt
      refine List.Pairwise.cons ?_ (ih hxs)
      intro y hy
      rcases List.mem_cons.mp ((insertByIdDesc_perm m xs).mem_iff.mp hy) with rfl | hy2
      · exact le_of_not_le hgt
      · exact hx y hy2

theorem sortByIdDesc_pairwise (l : List Message) :
    (sortByIdDesc l).Pairwise (fun a b => b.id ≤ a.id) := by
  induction l with
  | nil => exact List.Pairwise.nil
  | cons x xs ih =>
    show (insertByIdDesc x (sortByIdDesc xs)).Pairwise _
    exact insertByIdDesc_pairwise x _ ih

theorem GetMessages_ok_eq (db : DB) (channelID limit : Int) (msgs : List Message)
    (hpos : 0 < limit)
    (hok : GetMessages db channelID limit = Except.ok msgs) :
    msgs = ((sortByIdDesc ((db.messages.filter
      (fun r => r.channelID = channelID)).filterMap (rowToMessage db))).take
        limit.toNat).reverse := by
  simp only [GetMessages] at hok
  rw [if_neg (not_le.mpr hpos)] at hok
  by_cases hio : db.ioError
  · rw [if_pos hio] at hok
    exact absurd hok (by simp)
  · rw [if_neg hio] at hok
    simp only [Except.ok.injEq] at hok
    exact hok.symm

theorem rowToMessage_fields (db : DB) (r : MsgRow) (m : Message)
    (hm : rowToMessage db r = some m) :
    msgRowOf m = r ∧ m.channelID = r.channelID ∧ m.id = r.id := by
  unfold rowToMessage at hm
  cases hlu : lookupUser db r.userID with
  | none => rw [hlu] at hm; exact absurd hm (by simp)
  | some name =>
    rw [hlu] at hm
    simp only [Option.some.injEq] at hm
    subst hm
    exact ⟨rfl, rfl, rfl⟩

theorem find?_append_of_none {α : Type} (p : α → Bool) (l1 l2 : List α)
    (h : l1.find? p = none) : (l1 ++ l2).find? p = l2.find? p := by
  induction l1 with
  | nil => rfl
  | cons x xs ih =>
    by_cases hp : p x
    · rw [List.find?_cons_of_pos _ hp] at h
      exact absurd h (by simp)
    · rw [List.find?_cons_of_neg _ hp] at h
      rw [List.cons_append, List.find?_cons_of_neg _ hp]
      exact ih h

theorem getMessageByID_inserted (db : DB) (row : MsgRow)
    (hwf : ∀ r ∈ db.messages, r.id < db.nextID) (hid : row.id = db.nextID) :
    getMessageByID
      { db with messages := db.messages ++ [row], nextID := db.nextID + 1 }
      db.nextID = rowToMessage db row := by
  unfold getMessageByID
  have hnone : db.messages.find? (fun r => r.id = db.nextID) = none := by
    rw [List.find?_eq_none]
    intro r hr
    simp only [decide_eq_true_eq]
    exact ne_of_lt (hwf r hr)
  show ((db.messages ++ [row]).find? (fun r => r.id = db.nextID)).bind _ = _
  rw [find?_append_of_none _ _ _ hnone,
    List.find?_cons_of_pos _ (by simp [hid])]
  rfl

theorem CreateMessage_ok (db : DB) (userID channelID : Int) (content : String)
    (msg : Message) (db2 : DB)
    (hwf : ∀ r ∈ db.messages, r.id < db.nextID)
    (hok : CreateMessage db userID channelID content = Except.ok (msg, db2)) :
    db2.messages = db.messages ++ [msgRowOf msg] ∧
    msg.content = content ∧ msg.channelID = channelID ∧
    msg.userID = userID ∧ msg.id = db.nextID ∧ msg.createdAt = db.now := by
  simp only [CreateMessage] at hok
  split at hok
  · exact absurd hok (by simp)
  · rw [getMessageByID_inserted db _ hwf rfl] at hok
    unfold rowToMessage at hok
    dsimp only at hok
    cases hlu : lookupUser db userID with
    | none =>
      rw [hlu] at hok
      exact absurd hok (by simp)
    | some name =>
      rw [hlu] at hok
      simp only [Except.ok.injEq, Prod.mk.injEq] at hok
      obtain ⟨hmsg, hdb2⟩ := hok
      subst hmsg
      subst hdb2
      exact ⟨rfl, rfl, rfl, rfl, rfl, rfl⟩

theorem createAndBroadcastMessage_ok_inv (h : HubState) (c : Nat)
    (channelID : Int) (content : String) (h1 : HubState)
    (hok : createAndBroadcastMessage h c channelID content = Except.ok h1) :
    ∃ msg db2,
      CreateMessage h.db (h.clientStates c).user.id channelID (trimSpace content)
        = Except.ok (msg, db2) ∧
      h1 = broadcastToChannel { h with db := db2 } channelID
        (Frame.newMessage msg) := by
  unfold createAndBroadcastMessage at hok
  split at hok
  · exact absurd hok (by simp)
  · split at hok
    · exact absurd hok (by simp)
    · split at hok
      · exact absurd hok (by simp)
      · split at hok
        · exact absurd hok (by simp)
        · rename_i msg db2 heq
          simp only [Except.ok.injEq] at hok
          exact ⟨msg, db2, heq, hok.symm⟩

theorem pairwise_take_drop {l : List Message} {n : Nat} {a b : Message}
    (hsorted : l.Pairwise (fun a b => b.id ≤ a.id))
    (ha : a ∈ l.take n) (hb : b ∈ l) (hbn : b ∉ l.take n) : b.id ≤ a.id := by
  have hb2 : b ∈ l.take n ++ l.drop n := by
    rw [List.take_append_drop]
    exact hb
  have hpair : (l.take n ++ l.drop n).Pairwise (fun a b => b.id ≤ a.id) := by
    rw [List.take_append_drop]
    exact hsorted
  rcases List.mem_append.mp hb2 with h1 | h2
  · exact absurd h1 hbn
  · exact (List.pairwise_append.mp hpair).2.2 a ha b h2

theorem createAndBroadcastMessage_fails (h : HubState) (c : Nat) (cid : Int)
    (content : String)
    (hfail : cid ≤ 0 ∨ trimSpace content = "" ∨
      goLen (trimSpace content) > maxMessageSize ∨ h.db.ioError = true) :
    ∃ e : String, createAndBroadcastMessage h c cid content = Except.error e := by
  unfold createAndBroadcastMessage
  by_cases h1 : cid ≤ 0
  · exact ⟨_, by rw [if_pos h1]⟩
  · rw [if_neg h1]
    by_cases h2 : trimSpace content = ""
    · exact ⟨_, by rw [if_pos h2]⟩
    · rw [if_neg h2]
      by_cases h3 : goLen (trimSpace content) > maxMessageSize
      · exact ⟨_, by rw [if_pos h3]⟩
      · rw [if_neg h3]
        have hio : h.db.ioError = true := by tauto
        have hcm : CreateMessage h.db (h.clientStates c).user.id cid
            (trimSpace content) = Except.error "create message: insert message" := by
          unfold CreateMessage
          rw [if_pos hio]
        rw [hcm]
        exact ⟨_, rfl⟩

/-! ## Claims -/

/-- C1: in every reachable hub state every connection is a member of at
most one entry of the text-channel membership index (`Hub.channels`),
and after `join_channel(A)` followed by `join_channel(B)` by the same
connection (both succeeding) the connection is a member of channel B's
set and of no other channel's set. -/
theorem C1_text_membership_exclusive :
    (∀ h : HubState, Reachable h → textUnique h) ∧
    (∀ (h : HubState) (c : Nat) (A B : Int) (h1 h2 : HubState),
      joinChannel h c A = Except.ok h1 →
      joinChannel h1 c B = Except.ok h2 →
      c ∈ h2.channels B ∧ ∀ ch : Int, ch ≠ B → c ∉ h2.channels ch) := by
  constructor
  · exact textUnique_reachable
  · intro h c A B h1 h2 hA hB
    constructor
    · rw [joinChannel_channels_mem h1 c B h2 hB]
      exact Or.inl ⟨rfl, rfl⟩
    · intro ch hne hmem
      rw [joinChannel_channels_mem h1 c B h2 hB] at hmem
      rcases hmem with ⟨-, rfl⟩ | ⟨hnc, -⟩
      · exact hne rfl
      · exact hnc rfl

/-- C1 witness: a fresh hub satisfies the invariant, and after
connection 1 joins channel 1 and then channel 2 it is in channel 2's set
and not in channel 1's. -/
theorem C1_text_membership_exclusive_witness :
    textUnique (initialHub wDB) ∧
    1 ∈ wJoin2.channels 2 ∧ 1 ∉ wJoin2.channels 1 :=
  ⟨C1_text_membership_exclusive.1 (initialHub wDB) (Reachable.init wDB),
   (C1_text_membership_exclusive.2 wHub 1 1 2 wJoin1 wJoin2 rfl rfl).1,
   (C1_text_membership_exclusive.2 wHub 1 1 2 wJoin1 wJoin2 rfl rfl).2 1 (by decide)⟩

/-- C2: when a broadcast reaches a snapshotted member whose outbound
queue is saturated, that member is removed from the client set and from
every channel's member set and its transport is closed, while every
other snapshotted member with queue room still gets the payload
enqueued.  (Non-blocking holds by construction: `broadcastToChannel` is
a total function of the snapshot, delivering with the `select`/`default`
try-send.) -/
theorem C2_broadcast_evicts_slow_member :
    ∀ (h : HubState) (ch : Int) (data : Frame) (x : Nat),
      (h.channels ch).Nodup → x ∈ h.channels ch →
      (¬ (h.clientStates x).send.length < sendCap →
        x ∉ (broadcastToChannel h ch data).clients ∧
        (∀ ch2 : Int, x ∉ (broadcastToChannel h ch data).channels ch2) ∧
        ((broadcastToChannel h ch data).clientStates x).closed = true) ∧
      ((h.clientStates x).send.length < sendCap →
        ((broadcastToChannel h ch data).clientStates x).send =
          (h.clientStates x).send ++ [data]) := by
  intro h ch data x hnd hx
  constructor
  · intro hfull
    exact broadcast_member_full h ch data x hnd hx hfull
  · intro hroom
    rw [broadcast_member_room h ch data x hnd hx hroom]

set_option maxRecDepth 8192 in
/-- C2 witness: broadcasting on channel 7 of `wHubFull` evicts the
saturated connection 2 and still enqueues the payload for connection 1. -/
theorem C2_broadcast_evicts_slow_member_witness :
    2 ∉ (broadcastToChannel wHubFull 7 (Frame.error "m")).clients ∧
    ((broadcastToChannel wHubFull 7 (Frame.error "m")).clientStates 2).closed = true ∧
    ((broadcastToChannel wHubFull 7 (Frame.error "m")).clientStates 1).send =
      (wHubFull.clientStates 1).send ++ [Frame.error "m"] :=
  ⟨((C2_broadcast_evicts_slow_member wHubFull 7 (Frame.error "m") 2
      (by decide) (by decide)).1 (by decide)).1,
   ((C2_broadcast_evicts_slow_member wHubFull 7 (Frame.error "m") 2
      (by decide) (by decide)).1 (by decide)).2.2,
   (C2_broadcast_evicts_slow_member wHubFull 7 (Frame.error "m") 1
      (by decide) (by decide)).2 (by decide)⟩

/-- C3: every teardown removes the connection from every hub mapping and
closes the transport; when the connection holds voice membership the
teardown first broadcasts a `leave_voice` presence frame to the voice
channel's current text membership (each other member with queue room
receives it); when it holds none, no other connection's state changes.
The final conjunct covers the full-queue trigger: a broadcast eviction
never clears the victim's recorded voice channel, so the victim's
subsequent read-loop teardown still emits the voice-leave broadcast. -/
theorem C3_teardown_effects :
    ∀ (h : HubState) (c : Nat),
      (c ∉ (teardown h c).clients ∧ ∀ ch : Int, c ∉ (teardown h c).channels ch) ∧
      ((teardown h c).clientStates c).closed = true ∧
      (0 < (h.clientStates c).voiceChannelID →
        (h.channels ((h.clientStates c).voiceChannelID)).Nodup →
        ∀ m ∈ h.channels ((h.clientStates c).voiceChannelID), m ≠ c →
          (h.clientStates m).send.length < sendCap →
          ((teardown h c).clientStates m).send =
            (h.clientStates m).send ++
              [Frame.leaveVoice (h.clientStates c).user.id
                (h.clientStates c).user.username
                ((h.clientStates c).voiceChannelID)]) ∧
      ((h.clientStates c).voiceChannelID ≤ 0 →
        ∀ m : Nat, m ≠ c → (teardown h c).clientStates m = h.clientStates m) ∧
      (∀ (ch : Int) (data : Frame),
        ((broadcastToChannel h ch data).clientStates c).voiceChannelID =
          (h.clientStates c).voiceChannelID) := by
  intro h c
  refine ⟨⟨?_, ?_⟩, ?_, ?_, ?_, ?_⟩
  · rw [teardown_eq]
    show c ∉ (removeClient (markVoiceLeave h c _) c).clients
    intro hmem
    exact ((removeClient_clients_mem _ c c).mp hmem).2 rfl
  · intro ch
    rw [teardown_eq]
    show c ∉ (removeClient (markVoiceLeave h c _) c).channels ch
    intro hmem
    exact ((removeClient_channels_mem _ c c ch).mp hmem).2 rfl
  · rw [teardown_eq]
    show ((setClosed (removeClient (markVoiceLeave h c _) c) c).clientStates c).closed = true
    unfold setClosed
    rw [setClientState_clientStates_self]
  · intro hv hnd m hm hmne hroom
    have hgt : ¬ resolveLeaveChannel h c ((h.clientStates c).voiceChannelID) ≤ 0 := by
      rw [resolveLeaveChannel_self h c]
      exact not_le.mpr hv
    have hms : (teardown h c).clientStates m =
        (markVoiceLeave h c ((h.clientStates c).voiceChannelID)).clientStates m := by
      rw [teardown_eq]
      unfold setClosed
      rw [setClientState_clientStates_ne _ _ _ _ hmne]
      rfl
    rw [hms, markVoiceLeave_active h c _ hgt, resolveLeaveChannel_self h c]
    have hinner : (setClientState h c
        { h.clientStates c with voiceChannelID := 0 }).clientStates m =
        h.clientStates m :=
      setClientState_clientStates_ne _ _ _ _ hmne
    rw [broadcast_member_room _ _ _ m (by rw [setClientState_channels]; exact hnd)
      (by rw [setClientState_channels]; exact hm) (by rw [hinner]; exact hroom)]
    rw [hinner]
  · intro hle m hmne
    have hnop : markVoiceLeave h c ((h.clientStates c).voiceChannelID) = h :=
      markVoiceLeave_nop h c _ (by rw [resolveLeaveChannel_self h c]; exact hle)
    rw [teardown_eq, hnop]
    unfold setClosed
    rw [setClientState_clientStates_ne _ _ _ _ hmne]
    rfl
  · intro ch data
    exact broadcast_voice h ch data c

/-- C3 witness: tearing down connection 1 of `wHub` (voice member of
channel 7) delivers `leave_voice` to connection 2, removes connection 1
from the maps and closes it. -/
theorem C3_teardown_effects_witness :
    ((teardown wHub 1).clientStates 2).send =
      (wHub.clientStates 2).send ++ [Frame.leaveVoice 1 "alice" 7] ∧
    1 ∉ (teardown wHub 1).clients ∧
    ((teardown wHub 1).clientStates 1).closed = true :=
  ⟨(C3_teardown_effects wHub 1).2.2.1 (by decide) (by decide) 2
      (by decide) (by decide) (by decide),
   (C3_teardown_effects wHub 1).1.1,
   (C3_teardown_effects wHub 1).2.1⟩

/-- C4 is refuted: an inbound frame above the read limit does not
produce an error frame with the connection left open — the read fails
(`SetReadLimit`), the loop exits, and the connection is torn down: here
the transport ends up closed, the connection is deregistered, and no
error frame was ever queued. -/
theorem C4_oversized_frame_counterexample :
    ((readPump wHubNoVoice 1 [wBigFrame]).clientStates 1).closed = true ∧
    ((readPump wHubNoVoice 1 [wBigFrame]).clientStates 1).send = [] ∧
    1 ∉ (readPump wHubNoVoice 1 [wBigFrame]).clients := by
  decide

/-- C4 amended: a frame that fails structural (JSON) decoding yields a
single error frame back to the sender (queue room permitting), does not
close the connection, and the loop continues with the next frame; a
frame exceeding the maximum frame size instead terminates the read loop
into teardown. -/
theorem C4_frame_errors_amended :
    ∀ (h : HubState) (c : Nat) (f : RawFrame) (fs : List RawFrame),
      (f.size > maxPayloadSize → readPump h c (f :: fs) = teardown h c) ∧
      (f.size ≤ maxPayloadSize → f.decoded = none →
        readPump h c (f :: fs) =
          readPump (sendError h c "invalid event payload") c fs ∧
        ((h.clientStates c).send.length < sendCap →
          ((sendError h c "invalid event payload").clientStates c).send =
            (h.clientStates c).send ++ [Frame.error "invalid event payload"] ∧
          ((sendError h c "invalid event payload").clientStates c).closed =
            (h.clientStates c).closed)) := by
  intro h c f fs
  constructor
  · intro hbig
    simp only [readPump]
    rw [if_pos hbig]
  · intro hsz hdec
    have hnb : ¬ f.size > maxPayloadSize := not_lt.mpr hsz
    refine ⟨?_, ?_⟩
    · simp only [readPump]
      rw [if_neg hnb, hdec]
    · intro hroom
      constructor
      · rw [sendError_room h c _ hroom]
      · rw [sendError_room h c _ hroom]

/-- C4 witness for the amended statement: the oversized frame tears the
hub state down; the undecodable frame queues exactly one error frame and
continues. -/
theorem C4_frame_errors_amended_witness :
    readPump wHubNoVoice 1 [wBigFrame] = teardown wHubNoVoice 1 ∧
    readPump wHubNoVoice 1 [wBadFrame] =
      readPump (sendError wHubNoVoice 1 "invalid event payload") 1 [] ∧
    ((sendError wHubNoVoice 1 "invalid event payload").clientStates 1).send =
      (wHubNoVoice.clientStates 1).send ++ [Frame.error "invalid event payload"] :=
  ⟨(C4_frame_errors_amended wHubNoVoice 1 wBigFrame []).1 (by decide),
   ((C4_frame_errors_amended wHubNoVoice 1 wBadFrame []).2 (by decide) rfl).1,
   (((C4_frame_errors_amended wHubNoVoice 1 wBadFrame []).2 (by decide) rfl).2
      (by decide)).1⟩

/-- C8 is refuted: connection 1 holds no voice membership
(`voiceChannelID = 0`), yet `leave_voice` with a supplied channel id 5
broadcasts a `leave_voice` presence frame to channel 5 — connection 2
observes it — contradicting "no broadcast is emitted regardless of
whether a channel id is supplied". -/
theorem C8_leave_voice_counterexample :
    (wHubNoVoice.clientStates 1).voiceChannelID = 0 ∧
    ((markVoiceLeave wHubNoVoice 1 5).clientStates 2).send =
      [Frame.leaveVoice 1 "alice" 5] := by
  decide

/-- C8 amended: `leave_voice` never fails; when the resolved channel
(the supplied id if positive, else the recorded voice channel) is
non-positive it is a no-op with no observable effect; otherwise the
voice field is cleared and a presence-left frame is broadcast to the
resolved channel's text membership — regardless of whether voice
membership was actually held. -/
theorem C8_leave_voice_amended :
    ∀ (h : HubState) (c : Nat) (cid : Int),
      (resolveLeaveChannel h c cid ≤ 0 → markVoiceLeave h c cid = h) ∧
      (0 < resolveLeaveChannel h c cid →
        ((markVoiceLeave h c cid).clientStates c).voiceChannelID = 0 ∧
        ((h.channels (resolveLeaveChannel h c cid)).Nodup →
          ∀ m ∈ h.channels (resolveLeaveChannel h c cid), m ≠ c →
            (h.clientStates m).send.length < sendCap →
            ((markVoiceLeave h c cid).clientStates m).send =
              (h.clientStates m).send ++
                [Frame.leaveVoice (h.clientStates c).user.id
                  (h.clientStates c).user.username
                  (resolveLeaveChannel h c cid)])) := by
  intro h c cid
  constructor
  · exact markVoiceLeave_nop h c cid
  · intro hpos
    have hgt : ¬ resolveLeaveChannel h c cid ≤ 0 := not_le.mpr hpos
    rw [markVoiceLeave_active h c cid hgt]
    constructor
    · rw [broadcast_voice, setClientState_clientStates_self]
    · intro hnd m hm hmne hroom
      have hinner : (setClientState h c
          { h.clientStates c with voiceChannelID := 0 }).clientStates m =
          h.clientStates m :=
        setClientState_clientStates_ne _ _ _ _ hmne
      rw [broadcast_member_room _ _ _ m
        (by rw [setClientState_channels]; exact hnd)
        (by rw [setClientState_channels]; exact hm)
        (by rw [hinner]; exact hroom)]
      rw [hinner]

/-- C8 witness for the amended statement: with no channel supplied and
no voice membership the call is a no-op; with voice membership held the
voice field is cleared and connection 2 receives the presence-left
frame. -/
theorem C8_leave_voice_amended_witness :
    markVoiceLeave wHubNoVoice 1 0 = wHubNoVoice ∧
    ((markVoiceLeave wHub 1 0).clientStates 1).voiceChannelID = 0 ∧
    ((markVoiceLeave wHub 1 0).clientStates 2).send =
      (wHub.clientStates 2).send ++ [Frame.leaveVoice 1 "alice" 7] :=
  ⟨(C8_leave_voice_amended wHubNoVoice 1 0).1 (by decide),
   ((C8_leave_voice_amended wHub 1 0).2 (by decide)).1,
   ((C8_leave_voice_amended wHub 1 0).2 (by decide)).2 (by decide) 2
      (by decide) (by decide) (by decide)⟩

/-- C9: a signal's target channel is resolved as the explicit id if
positive, else the current voice channel, else the current text channel;
an unresolvable channel or an empty payload queues an error frame to the
sender only; otherwise the payload is rewrapped with the sender's
identity and the target id and enqueued for every member of the resolved
channel's membership — no per-recipient filtering by target id. -/
theorem C9_signal_relay :
    ∀ (h : HubState) (c : Nat) (evt : InEvent), evt.type = "signal" →
      (0 < evt.channelID → resolveSignalChannel h c evt = evt.channelID) ∧
      (evt.channelID ≤ 0 → 0 < (h.clientStates c).voiceChannelID →
        resolveSignalChannel h c evt = (h.clientStates c).voiceChannelID) ∧
      (evt.channelID ≤ 0 → (h.clientStates c).voiceChannelID ≤ 0 →
        resolveSignalChannel h c evt = (h.clientStates c).channelID) ∧
      (resolveSignalChannel h c evt ≤ 0 →
        (h.clientStates c).send.length < sendCap →
        ((dispatchEvent h c evt).clientStates c).send =
          (h.clientStates c).send ++
            [Frame.error "channel is required for signal"]) ∧
      (0 < resolveSignalChannel h c evt → evt.payload.isEmpty = true →
        (h.clientStates c).send.length < sendCap →
        ((dispatchEvent h c evt).clientStates c).send =
          (h.clientStates c).send ++
            [Frame.error "signal payload is required"]) ∧
      (0 < resolveSignalChannel h c evt → evt.payload.isEmpty = false →
        (h.channels (resolveSignalChannel h c evt)).Nodup →
        ∀ m ∈ h.channels (resolveSignalChannel h c evt),
          (h.clientStates m).send.length < sendCap →
          ((dispatchEvent h c evt).clientStates m).send =
            (h.clientStates m).send ++
              [Frame.signal (h.clientStates c).user.id
                (h.clientStates c).user.username evt.targetID
                (resolveSignalChannel h c evt) evt.payload]) := by
  intro h c evt hty
  refine ⟨resolveSignalChannel_explicit h c evt,
    resolveSignalChannel_voice h c evt,
    resolveSignalChannel_text h c evt, ?_, ?_, ?_⟩
  · intro hle hroom
    rw [dispatchEvent_signal h c evt hty, relaySignal_no_channel h c evt hle]
    rw [sendError_room h c _ hroom]
  · intro hpos hp hroom
    rw [dispatchEvent_signal h c evt hty,
      relaySignal_empty_payload h c evt (not_le.mpr hpos) hp]
    rw [sendError_room h c _ hroom]
  · intro hpos hp hnd m hm hroom
    rw [dispatchEvent_signal h c evt hty,
      relaySignal_ok_eq h c evt (not_le.mpr hpos) hp]
    rw [broadcast_member_room h _ _ m hnd hm hroom]

/-- C9 witness: explicit id wins; else the voice channel; else the text
channel; unresolvable channel and empty payload each queue one error
frame to the sender; a relayed signal reaches another member unfiltered. -/
theorem C9_signal_relay_witness :
    resolveSignalChannel wHub 1 wSigExplicit = 5 ∧
    resolveSignalChannel wHub 1 wSigDefault = 7 ∧
    resolveSignalChannel wHubNoVoice 1 wSigDefault =
      (wHubNoVoice.clientStates 1).channelID ∧
    ((dispatchEvent wHubNoVoice 1 wSigDefault).clientStates 1).send =
      (wHubNoVoice.clientStates 1).send ++
        [Frame.error "channel is required for signal"] ∧
    ((dispatchEvent wHub 1 wSigEmpty).clientStates 1).send =
      (wHub.clientStates 1).send ++
        [Frame.error "signal payload is required"] ∧
    ((dispatchEvent wHub 1 wSigDefault).clientStates 2).send =
      (wHub.clientStates 2).send ++ [Frame.signal 1 "alice" "peer" 7 "blob"] :=
  ⟨(C9_signal_relay wHub 1 wSigExplicit rfl).1 (by decide),
   (C9_signal_relay wHub 1 wSigDefault rfl).2.1 (by decide) (by decide),
   (C9_signal_relay wHubNoVoice 1 wSigDefault rfl).2.2.1 (by decide) (by decide),
   (C9_signal_relay wHubNoVoice 1 wSigDefault rfl).2.2.2.1 (by decide) (by decide),
   (C9_signal_relay wHub 1 wSigEmpty rfl).2.2.2.2.1 (by decide) rfl (by decide),
   (C9_signal_relay wHub 1 wSigDefault rfl).2.2.2.2.2 (by decide) rfl
      (by decide) 2 (by decide) (by decide)⟩

/-- C10: an error frame offered to a connection with a saturated queue
is dropped silently — the hub state is left entirely unchanged (no
close, no deregistration), in contrast with broadcast delivery (C2);
with queue room the frame is enqueued and nothing else changes. -/
theorem C10_sendError_best_effort :
    ∀ (h : HubState) (c : Nat) (msg : String),
      (¬ (h.clientStates c).send.length < sendCap → sendError h c msg = h) ∧
      ((h.clientStates c).send.length < sendCap →
        ((sendError h c msg).clientStates c).send =
          (h.clientStates c).send ++ [Frame.error msg] ∧
        ((sendError h c msg).clientStates c).closed =
          (h.clientStates c).closed ∧
        (sendError h c msg).clients = h.clients ∧
        (sendError h c msg).channels = h.channels ∧
        (∀ d : Nat, d ≠ c →
          (sendError h c msg).clientStates d = h.clientStates d)) := by
  intro h c msg
  constructor
  · exact sendError_full h c msg
  · intro hroom
    refine ⟨?_, ?_, sendError_clients h c msg, sendError_channels h c msg,
      fun d hd => sendError_clientStates_ne h c msg d hd⟩
    · rw [sendError_room h c msg hroom]
    · rw [sendError_room h c msg hroom]

set_option maxRecDepth 8192 in
/-- C10 witness: dropping on the saturated connection 2 leaves the state
untouched; enqueueing on connection 1 appends exactly the error frame. -/
theorem C10_sendError_best_effort_witness :
    sendError wHubFull 2 "oops" = wHubFull ∧
    ((sendError wHubFull 1 "oops").clientStates 1).send =
      (wHubFull.clientStates 1).send ++ [Frame.error "oops"] :=
  ⟨(C10_sendError_best_effort wHubFull 2 "oops").1 (by decide),
   ((C10_sendError_best_effort wHubFull 1 "oops").2 (by decide)).1⟩

/-- C5: a successful `join_channel` queues exactly one `channel_history`
frame for the requester alone; its message list holds at most the
history limit (50) entries, ordered oldest-first by id; every entry is a
stored message of that channel, and any stored message of the channel
absent from the list is no newer than every listed one (the store is
queried newest-first with a LIMIT and the result reversed). -/
theorem C5_join_channel_history :
    ∀ (h : HubState) (c : Nat) (evt : InEvent) (h1 : HubState)
      (msgs : List Message),
      evt.type = "join_channel" →
      joinChannel h c evt.channelID = Except.ok h1 →
      loadHistory h1.db evt.channelID = Except.ok msgs →
      ((dispatchEvent h c evt).clientStates c).send =
        (h.clientStates c).send ++ [Frame.channelHistory evt.channelID msgs] ∧
      (∀ d : Nat, d ≠ c →
        (dispatchEvent h c evt).clientStates d = h.clientStates d) ∧
      msgs.length ≤ 50 ∧
      msgs.Pairwise (fun a b => a.id ≤ b.id) ∧
      (∀ m ∈ msgs, m.channelID = evt.channelID ∧ msgRowOf m ∈ h.db.messages) ∧
      (∀ m', m' ∈ (h.db.messages.filter
          (fun r => r.channelID = evt.channelID)).filterMap (rowToMessage h.db) →
        m' ∉ msgs → ∀ x ∈ msgs, m'.id ≤ x.id) := by
  intro h c evt h1 msgs hty hj hl
  have hdb : h1.db = h.db := joinChannel_db _ _ _ _ hj
  have hl2 : GetMessages h.db evt.channelID messageHistLimit = Except.ok msgs := by
    rw [← hdb]
    exact hl
  have hmsgs := GetMessages_ok_eq h.db evt.channelID messageHistLimit msgs
    (by decide) hl2
  refine ⟨?_, ?_, ?_, ?_, ?_, ?_⟩
  · rw [dispatchEvent_join_ok h c evt h1 msgs hty hj hl,
      pushOwn_clientStates_self, joinChannel_clientStates_self h c _ h1 hj]
  · intro d hd
    rw [dispatchEvent_join_ok h c evt h1 msgs hty hj hl,
      pushOwn_clientStates_ne h1 c _ d hd,
      joinChannel_clientStates_ne h c _ h1 hj d hd]
  · rw [hmsgs, List.length_reverse, List.length_take]
    exact min_le_left _ _
  · rw [hmsgs, List.pairwise_reverse]
    exact (sortByIdDesc_pairwise _).sublist (List.take_sublist _ _)
  · intro m hm
    have hm2 : m ∈ sortByIdDesc ((h.db.messages.filter
        (fun r => r.channelID = evt.channelID)).filterMap (rowToMessage h.db)) := by
      rw [hmsgs] at hm
      exact (List.take_sublist _ _).mem (List.mem_reverse.mp hm)
    have hm3 := (sortByIdDesc_perm _).mem_iff.mp hm2
    obtain ⟨r, hr, hrm⟩ := List.mem_filterMap.mp hm3
    obtain ⟨hrow, hch, -⟩ := rowToMessage_fields _ _ _ hrm
    obtain ⟨hrmem, hrch⟩ := List.mem_filter.mp hr
    refine ⟨?_, ?_⟩
    · rw [hch]
      exact of_decide_eq_true hrch
    · rw [hrow]
      exact hrmem
  · intro m' hm'rows hm'nmem x hx
    have hm'sorted := (sortByIdDesc_perm _).mem_iff.mpr hm'rows
    have hx2 : x ∈ (sortByIdDesc ((h.db.messages.filter
        (fun r => r.channelID = evt.channelID)).filterMap
          (rowToMessage h.db))).take messageHistLimit.toNat := by
      rw [hmsgs] at hx
      exact List.mem_reverse.mp hx
    have hm'take : m' ∉ (sortByIdDesc ((h.db.messages.filter
        (fun r => r.channelID = evt.channelID)).filterMap
          (rowToMessage h.db))).take messageHistLimit.toNat := by
      intro hmem
      exact hm'nmem (by rw [hmsgs]; exact List.mem_reverse.mpr hmem)
    exact pairwise_take_drop (sortByIdDesc_pairwise _) hx2 hm'sorted hm'take

/-- C5 witness: connection 1 joining channel 7 receives exactly the
channel-7 history (two stored messages, oldest first); connection 2's
state is untouched. -/
theorem C5_join_channel_history_witness :
    ((dispatchEvent wHub 1 wJoinEvt).clientStates 1).send =
      (wHub.clientStates 1).send ++ [Frame.channelHistory 7 wHist] ∧
    (dispatchEvent wHub 1 wJoinEvt).clientStates 2 = wHub.clientStates 2 ∧
    wHist.length ≤ 50 ∧
    wHist.Pairwise (fun a b => a.id ≤ b.id) :=
  ⟨(C5_join_channel_history wHub 1 wJoinEvt wJoin7 wHist rfl rfl rfl).1,
   (C5_join_channel_history wHub 1 wJoinEvt wJoin7 wHist rfl rfl rfl).2.1 2
     (by decide),
   (C5_join_channel_history wHub 1 wJoinEvt wJoin7 wHist rfl rfl rfl).2.2.1,
   (C5_join_channel_history wHub 1 wJoinEvt wJoin7 wHist rfl rfl rfl).2.2.2.1⟩

/-- C6: a successful `send_message` stores and broadcasts a message
whose body is exactly the whitespace-trimmed submitted body, whose
channel and author are the submitted channel and the sender, and whose
id and timestamp are server-assigned; every member with queue room
receives that same canonical message.  (The id-uniqueness hypothesis is
the store's primary-key/autoincrement invariant.) -/
theorem C6_message_round_trip :
    ∀ (h : HubState) (c : Nat) (channelID : Int) (content : String)
      (h1 : HubState),
      (∀ r ∈ h.db.messages, r.id < h.db.nextID) →
      createAndBroadcastMessage h c channelID content = Except.ok h1 →
      ∃ msg : Message,
        msg.content = trimSpace content ∧
        msg.channelID = channelID ∧
        msg.userID = (h.clientStates c).user.id ∧
        msg.id = h.db.nextID ∧ msg.createdAt = h.db.now ∧
        h1.db.messages = h.db.messages ++ [msgRowOf msg] ∧
        ((h.channels channelID).Nodup →
          ∀ m ∈ h.channels channelID,
            (h.clientStates m).send.length < sendCap →
            (h1.clientStates m).send =
              (h.clientStates m).send ++ [Frame.newMessage msg]) := by
  intro h c channelID content h1 hwf hok
  obtain ⟨msg, db2, hcm, rfl⟩ :=
    createAndBroadcastMessage_ok_inv h c channelID content h1 hok
  obtain ⟨hmsgs, hcontent, hch, huid, hid, hts⟩ :=
    CreateMessage_ok h.db _ channelID _ msg db2 hwf hcm
  refine ⟨msg, hcontent, hch, huid, hid, hts, ?_, ?_⟩
  · rw [broadcast_db]
    exact hmsgs
  · intro hnd m hm hroom
    rw [broadcast_member_room { h with db := db2 } channelID
      (Frame.newMessage msg) m hnd hm hroom]

/-- C6 witness: sending "  hi  " to channel 7 of `wHub` persists and
broadcasts the trimmed body with server-assigned id 4 and the store
clock as timestamp. -/
theorem C6_message_round_trip_witness :
    ∃ msg : Message,
      msg.content = trimSpace "  hi  " ∧
      msg.channelID = 7 ∧
      msg.userID = (wHub.clientStates 1).user.id ∧
      msg.id = wHub.db.nextID ∧ msg.createdAt = wHub.db.now ∧
      wSend.db.messages = wHub.db.messages ++ [msgRowOf msg] ∧
      ((wHub.channels 7).Nodup →
        ∀ m ∈ wHub.channels 7,
          (wHub.clientStates m).send.length < sendCap →
          (wSend.clientStates m).send =
            (wHub.clientStates m).send ++ [Frame.newMessage msg]) :=
  C6_message_round_trip wHub 1 7 "  hi  " wSend (by decide) rfl

/-- C7: a `send_message` with no resolvable channel (no explicit id and
no current channel), or with an all-whitespace body, an oversized body,
or a failing store, queues one error frame for the requester (queue room
permitting), changes no other connection's state, and leaves the store
unchanged — nothing is broadcast and nothing persisted. -/
theorem C7_send_message_failures :
    ∀ (h : HubState) (c : Nat) (evt : InEvent), evt.type = "send_message" →
      ((evt.channelID = 0 ∧ (h.clientStates c).channelID = 0) ∨
       trimSpace evt.content = "" ∨
       goLen (trimSpace evt.content) > maxMessageSize ∨
       h.db.ioError = true) →
      (dispatchEvent h c evt).db = h.db ∧
      (∀ d : Nat, d ≠ c →
        (dispatchEvent h c evt).clientStates d = h.clientStates d) ∧
      ((h.clientStates c).send.length < sendCap →
        ∃ e : String, ((dispatchEvent h c evt).clientStates c).send =
          (h.clientStates c).send ++ [Frame.error e]) := by
  intro h c evt hty hfail
  have hfail2 : (if evt.channelID = 0 then (h.clientStates c).channelID
      else evt.channelID) ≤ 0 ∨
      trimSpace evt.content = "" ∨
      goLen (trimSpace evt.content) > maxMessageSize ∨
      h.db.ioError = true := by
    rcases hfail with ⟨h0, hch⟩ | rest
    · refine Or.inl ?_
      rw [if_pos h0, hch]
    · exact Or.inr rest
  obtain ⟨e, he⟩ := createAndBroadcastMessage_fails h c _ evt.content hfail2
  rw [dispatchEvent_send_message_error h c evt e hty he]
  refine ⟨sendError_db h c e,
    fun d hd => sendError_clientStates_ne h c e d hd, ?_⟩
  intro hroom
  exact ⟨e, by rw [sendError_room h c e hroom]⟩

/-- C7 witness: a channel-less send from a channel-less connection, an
all-whitespace body, and a failing store each leave the store unchanged
and queue one error frame for the requester. -/
theorem C7_send_message_failures_witness :
    (dispatchEvent wHubNoVoice 1 wMsgEvtNoCh).db = wHubNoVoice.db ∧
    (∃ e : String, ((dispatchEvent wHubNoVoice 1 wMsgEvtNoCh).clientStates 1).send =
      (wHubNoVoice.clientStates 1).send ++ [Frame.error e]) ∧
    (dispatchEvent wHub 1 wMsgEvtBlank).db = wHub.db ∧
    (dispatchEvent wHubDown 1 wMsgEvtCh).db = wHubDown.db ∧
    (∃ e : String, ((dispatchEvent wHubDown 1 wMsgEvtCh).clientStates 1).send =
      (wHubDown.clientStates 1).send ++ [Frame.error e]) :=
  ⟨(C7_send_message_failures wHubNoVoice 1 wMsgEvtNoCh rfl
      (Or.inl ⟨rfl, rfl⟩)).1,
   (C7_send_message_failures wHubNoVoice 1 wMsgEvtNoCh rfl
      (Or.inl ⟨rfl, rfl⟩)).2.2 (by decide),
   (C7_send_message_failures wHub 1 wMsgEvtBlank rfl
      (Or.inr (Or.inl (by decide)))).1,
   (C7_send_message_failures wHubDown 1 wMsgEvtCh rfl
      (Or.inr (Or.inr (Or.inr rfl)))).1,
   (C7_send_message_failures wHubDown 1 wMsgEvtCh rfl
      (Or.inr (Or.inr (Or.inr rfl)))).2.2 (by decide)⟩

end Openvoice
